import Mathlib

/-!
Shallow embedding of the devotional-bot core (session lifecycle manager,
credential store, delivery scheduler) translated from the TypeScript source:
`src/services/whatsapp.ts` (Baileys + SQLite variant), the
`SchedulerService` and `WhatsAppAuthService` classes, and
`DevotionalBot.setupScheduler` in `src/index.ts`.
-/

/-! ## Delivery scheduler (`SchedulerService` in the source)

`executeTask` runs the injected callback `onExecute`; on a `false` result or a
thrown error it enters `retryTask`, a loop of at most 3 further attempts, each
preceded by a fixed 5-minute (300000 ms) delay, stopping at the first success
and logging a terminal failure after the loop exhausts.  `executeNow` calls
`onExecute` once and returns its result. The callback is modelled as a map
from the invocation index to an outcome. -/

/-- Result of one invocation of the scheduler's `onExecute` callback:
the promise resolves `true`, resolves `false`, or rejects (throws). -/
inductive Outcome
  | success
  | failure
  | err
deriving DecidableEq, Repr

/-- Observable events emitted by a scheduler firing: an invocation of the
callback (numbered), a delay of the given milliseconds, the terminal
"all retry attempts failed" log line. -/
inductive Ev
  | invoke (n : Nat)
  | wait (ms : Nat)
  | logTerminal
deriving DecidableEq, Repr

/-- The `for (attempt = 1; attempt <= maxRetries; ...)` loop body of
`SchedulerService.retryTask`, with `fuel` the remaining attempts, `idx` the
index of the next callback invocation. Each iteration awaits the 5-minute
delay, re-invokes the callback, returns on success, falls through on
`false` or a thrown error; after the last iteration the terminal failure is
logged. -/
def retryLoop (cb : Nat → Outcome) (idx : Nat) : Nat → List Ev
  | 0 => [Ev.logTerminal]
  | fuel + 1 =>
    Ev.wait 300000 :: Ev.invoke idx ::
      (match cb idx with
       | Outcome.success => []
       | Outcome.failure => retryLoop cb (idx + 1) fuel
       | Outcome.err => retryLoop cb (idx + 1) fuel)

/-- `SchedulerService.retryTask`: `maxRetries = 3`, `retryDelay = 5 * 60 * 1000`. -/
def retryTask (cb : Nat → Outcome) (idx : Nat) : List Ev :=
  retryLoop cb idx 3

/-- `SchedulerService.executeTask`: invoke `onExecute`; on `false` or a thrown
error, run `retryTask`. -/
def executeTask (cb : Nat → Outcome) : List Ev :=
  Ev.invoke 0 ::
    (match cb 0 with
     | Outcome.success => []
     | Outcome.failure => retryTask cb 1
     | Outcome.err => retryTask cb 1)

/-- `SchedulerService.executeNow`: `return await this.config.onExecute()` —
a single invocation whose outcome is returned directly (a rejection
propagates to the caller). -/
def executeNow (cb : Nat → Outcome) : Outcome × List Ev :=
  (cb 0, [Ev.invoke 0])

/-- The trace of callback invocations and delays `executeNow` produces. -/
def executeNowTrace (cb : Nat → Outcome) : List Ev :=
  (executeNow cb).2

/-- Is this event a callback invocation? -/
def isInvoke : Ev → Bool
  | Ev.invoke _ => true
  | _ => false

/-- Is this event a retry invocation (an invocation other than the initial one)? -/
def isRetryInvoke : Ev → Bool
  | Ev.invoke (_ + 1) => true
  | _ => false

/-- Number of callback invocations in a trace. -/
def numInvokes (t : List Ev) : Nat :=
  t.countP (fun e => isInvoke e)

/-- Every delay in the trace is exactly 300000 ms and immediately precedes a
retry invocation, and every retry invocation is immediately preceded by such
a delay. -/
def spaced : List Ev → Bool
  | [] => true
  | Ev.wait ms :: rest =>
    (ms == 300000) &&
      (match rest with
       | Ev.invoke (_ + 1) :: rest2 => spaced rest2
       | _ => false)
  | Ev.invoke (_ + 1) :: _ => false
  | _ :: rest => spaced rest

example : executeTask (fun _ => Outcome.success) = [Ev.invoke 0] := by decide

example :
    executeTask (fun _ => Outcome.failure) =
      [Ev.invoke 0, Ev.wait 300000, Ev.invoke 1, Ev.wait 300000, Ev.invoke 2,
       Ev.wait 300000, Ev.invoke 3, Ev.logTerminal] := by decide

example :
    executeTask (fun n => if n = 2 then Outcome.success else Outcome.failure) =
      [Ev.invoke 0, Ev.wait 300000, Ev.invoke 1, Ev.wait 300000, Ev.invoke 2] := by
  decide

/-- Characterization of a scheduled firing's trace in terms of the outcomes of
the first four callback invocations. -/
theorem executeTask_eq (cb : Nat → Outcome) :
    executeTask cb =
      if cb 0 = Outcome.success then [Ev.invoke 0]
      else Ev.invoke 0 :: Ev.wait 300000 :: Ev.invoke 1 ::
        (if cb 1 = Outcome.success then []
         else Ev.wait 300000 :: Ev.invoke 2 ::
           (if cb 2 = Outcome.success then []
            else Ev.wait 300000 :: Ev.invoke 3 ::
              (if cb 3 = Outcome.success then [] else [Ev.logTerminal]))) := by
  rcases h0 : cb 0 <;> rcases h1 : cb 1 <;> rcases h2 : cb 2 <;> rcases h3 : cb 3 <;>
    simp [executeTask, retryTask, retryLoop, h0, h1, h2, h3]

/-- C4: after a scheduled firing whose callback fails or throws, the scheduler
re-invokes the callback at most 3 more times (at most 4 invocations in all),
every retry invocation is separated by a fixed 5-minute (300000 ms) delay, a
success at invocation k stops further retries (at most k+1 invocations, no
terminal-failure log), and if the initial attempt and all 3 retries fail the
trace logs a terminal failure and makes exactly 4 invocations with no further
attempts. -/
theorem C4_scheduler_bounded_retry (cb : Nat → Outcome) :
    numInvokes (executeTask cb) ≤ 4 ∧
    spaced (executeTask cb) = true ∧
    (∀ k, k ≤ 3 → cb k = Outcome.success →
      numInvokes (executeTask cb) ≤ k + 1 ∧ Ev.logTerminal ∉ executeTask cb) ∧
    ((∀ k, k ≤ 3 → cb k ≠ Outcome.success) →
      numInvokes (executeTask cb) = 4 ∧ Ev.logTerminal ∈ executeTask cb) := by
  rw [executeTask_eq cb]
  by_cases h0 : cb 0 = Outcome.success <;>
    by_cases h1 : cb 1 = Outcome.success <;>
      by_cases h2 : cb 2 = Outcome.success <;>
        by_cases h3 : cb 3 = Outcome.success <;>
          simp only [h0, h1, h2, h3, if_true, if_false, eq_self_iff_true, ite_true,
            ite_false, not_false_iff]
  all_goals refine ⟨by decide, by decide, ?_, ?_⟩
  all_goals
    first
      | (intro k hk hs
         interval_cases k <;> simp_all <;> decide)
      | (intro hall
         first
           | exact absurd h0 (hall 0 (by norm_num))
           | exact absurd h1 (hall 1 (by norm_num))
           | exact absurd h2 (hall 2 (by norm_num))
           | exact absurd h3 (hall 3 (by norm_num))
           | decide)

/-- Witness for C4 at two concrete callbacks: one that always fails (4
invocations and a terminal failure) and one that succeeds on the first retry
(at most 2 invocations, no terminal failure). -/
theorem C4_scheduler_bounded_retry_witness :
    (numInvokes (executeTask (fun _ => Outcome.failure)) = 4 ∧
      Ev.logTerminal ∈ executeTask (fun _ => Outcome.failure)) ∧
    (numInvokes (executeTask (fun n => if n = 1 then Outcome.success else Outcome.failure)) ≤ 1 + 1 ∧
      Ev.logTerminal ∉ executeTask (fun n => if n = 1 then Outcome.success else Outcome.failure)) :=
  ⟨(C4_scheduler_bounded_retry (fun _ => Outcome.failure)).2.2.2
      (by intro k hk; interval_cases k <;> decide),
   (C4_scheduler_bounded_retry (fun n => if n = 1 then Outcome.success else Outcome.failure)).2.2.1
      1 (by decide) (by decide)⟩

/-- The claim that `executeNow` shares the scheduled firing path's
success/failure/retry handling: for every callback outcome its observable
trace equals that of a scheduled firing. -/
def claimC5 : Prop :=
  ∀ cb : Nat → Outcome, executeNowTrace cb = executeTask cb

/-- C5 counterexample: with a callback that always fails, `executeNow`
performs a single invocation and no retries, while the scheduled firing path
enters the bounded retry loop, so the two traces differ. -/
theorem C5_counterexample : ¬ claimC5 :=
  fun h => absurd (h (fun _ => Outcome.failure)) (by decide)

/-- C5 (amended): `executeNow()` invokes the task callback exactly once and
returns its outcome directly; it shares the scheduled firing path's observable
behaviour only when that first invocation succeeds — on failure or thrown
error it performs no retry handling, unlike a scheduled firing. -/
theorem C5_executeNow_single_attempt (cb : Nat → Outcome) :
    numInvokes (executeNowTrace cb) = 1 ∧
    (executeNow cb).1 = cb 0 ∧
    (cb 0 = Outcome.success → executeTask cb = executeNowTrace cb) ∧
    (cb 0 ≠ Outcome.success → executeTask cb ≠ executeNowTrace cb) := by
  refine ⟨rfl, rfl, ?_, ?_⟩
  · intro h
    simp [executeTask, h, executeNowTrace, executeNow]
  · intro h
    rw [executeTask_eq cb]
    simp [executeNowTrace, executeNow, h]

/-- Witness for C5 (amended) at a callback that always succeeds (traces agree)
and one that always fails (traces differ). -/
theorem C5_executeNow_single_attempt_witness :
    executeTask (fun _ => Outcome.success) = executeNowTrace (fun _ => Outcome.success) ∧
    executeTask (fun _ => Outcome.failure) ≠ executeNowTrace (fun _ => Outcome.failure) :=
  ⟨(C5_executeNow_single_attempt (fun _ => Outcome.success)).2.2.1 rfl,
   (C5_executeNow_single_attempt (fun _ => Outcome.failure)).2.2.2 (by decide)⟩

/-! ## Session manager send path (`WhatsAppService` in `src/services/whatsapp.ts`)

`sendMessage` guards on `!this.sock || !this.isConnected`, trims the chat id,
rejects an empty target, then forwards to the transport's send and returns
`true`, catching a transport throw as `false`.  The transport is modelled as
a boolean-valued oracle (`true` = the send resolved, `false` = it threw), and
the return value is paired with a flag recording whether the transport send
was invoked at all. -/

/-- JavaScript `String.prototype.trim` whitespace (the characters relevant to
chat ids). -/
def isJsWs (c : Char) : Bool :=
  c = ' ' || c = '\t' || c = '\n' || c = '\r' || c = '\x0b' || c = '\x0c'

/-- JavaScript `chatId.trim()`: strip leading and trailing whitespace. -/
def jsTrim (s : String) : String :=
  ⟨((s.data.dropWhile isJsWs).reverse.dropWhile isJsWs).reverse⟩

/-- The service's connection fields: `this.sock !== null` and
`this.isConnected`. -/
structure WASendState where
  sockPresent : Bool
  isConnected : Bool
deriving DecidableEq, Repr

/-- The spec's connection states. -/
inductive ConnState
  | disconnected
  | connecting
  | awaitingPairing
  | opened
  | closing
deriving DecidableEq, Repr

/-- How each spec state is realised by the service's fields: a socket exists
from the moment `makeWASocket` returns (`connecting`, `awaiting_pairing`),
but `isConnected` is set only on the `open` connection event. -/
def connFlags : ConnState → WASendState
  | ConnState.opened => ⟨true, true⟩
  | ConnState.connecting => ⟨true, false⟩
  | ConnState.awaitingPairing => ⟨true, false⟩
  | ConnState.disconnected => ⟨false, false⟩
  | ConnState.closing => ⟨false, false⟩

/-- `WhatsAppService.sendMessage(message, chatId)`: returns
`(result, transportInvoked)`. -/
def sendMessage (st : WASendState) (transport : String → String → Bool)
    (message chatId : String) : Bool × Bool :=
  if !st.sockPresent || !st.isConnected then (false, false)
  else
    let target := jsTrim chatId
    if target = "" then (false, false)
    else (transport target message, true)

/-- `WhatsAppService.sendToAll(message, chatIds)`: sequential loop over
`sendMessage`, counting successes and failures; alongside the
`{success, failures}` counts the embedding returns the ordered list of
`(destination, result)` pairs of the send calls the loop makes. -/
def sendToAll (st : WASendState) (transport : String → String → Bool)
    (message : String) : List String → (Nat × Nat) × List (String × Bool)
  | [] => ((0, 0), [])
  | c :: rest =>
    let sent := (sendMessage st transport message c).1
    let r := sendToAll st transport message rest
    ((if sent then r.1.1 + 1 else r.1.1, if sent then r.1.2 else r.1.2 + 1),
      (c, sent) :: r.2)

/-- The claim that `send()` returns `false` without a transport call in every
non-open state and, in the open state, always forwards to the transport and
returns its success for every destination and text. -/
def claimC3 : Prop :=
  ∀ (st : ConnState) (transport : String → String → Bool) (msg chatId : String),
    (st ≠ ConnState.opened →
      sendMessage (connFlags st) transport msg chatId = (false, false)) ∧
    (st = ConnState.opened →
      sendMessage (connFlags st) transport msg chatId = (transport (jsTrim chatId) msg, true))

/-- C3 counterexample: in the open state with destination `""` and a transport
whose send always succeeds, `sendMessage` returns `false` without invoking the
transport, contradicting the claim's open-state clause. -/
theorem C3_counterexample : ¬ claimC3 := fun h =>
  absurd ((h ConnState.opened (fun _ _ => true) "hello" "").2 rfl) (by decide)

/-- C3 (amended): in every state other than open, `send()` returns `false`
without invoking the transport; in the open state it does so too when the
trimmed destination is empty; in the open state with a nonempty trimmed
destination it forwards the trimmed destination to the transport and returns
the transport's success or failure. -/
theorem C3_send_state_guard (st : ConnState) (transport : String → String → Bool)
    (msg chatId : String) :
    (st ≠ ConnState.opened →
      sendMessage (connFlags st) transport msg chatId = (false, false)) ∧
    (st = ConnState.opened → jsTrim chatId = "" →
      sendMessage (connFlags st) transport msg chatId = (false, false)) ∧
    (st = ConnState.opened → jsTrim chatId ≠ "" →
      sendMessage (connFlags st) transport msg chatId = (transport (jsTrim chatId) msg, true)) := by
  refine ⟨?_, ?_, ?_⟩
  · intro hne
    cases st <;> simp_all [sendMessage, connFlags]
  · intro he htrim
    subst he
    simp [sendMessage, connFlags, htrim]
  · intro he htrim
    subst he
    simp [sendMessage, connFlags, htrim]

/-- Witness for C3 (amended): concrete sends while connecting (guarded), while
open with a blank destination (guarded), and while open with destination
`" g1 "` against an always-successful transport (forwarded, returns true). -/
theorem C3_send_state_guard_witness :
    sendMessage (connFlags ConnState.connecting) (fun _ _ => true) "hello" "g1" = (false, false) ∧
    sendMessage (connFlags ConnState.opened) (fun _ _ => true) "hello" "" = (false, false) ∧
    sendMessage (connFlags ConnState.opened) (fun _ _ => true) "hello" " g1 " = (true, true) :=
  ⟨(C3_send_state_guard ConnState.connecting (fun _ _ => true) "hello" "g1").1 (by decide),
   (C3_send_state_guard ConnState.opened (fun _ _ => true) "hello" "").2.1 rfl (by decide),
   (C3_send_state_guard ConnState.opened (fun _ _ => true) "hello" " g1 ").2.2 rfl (by decide)⟩

/-- C9: `sendToAll` makes exactly one `sendMessage` call per destination, in
list order (the trace's destinations are the input list), its success count is
the number of destinations whose send returned `true`, its failure count the
number that returned `false`, and the two counts sum to the length of the
destination list. -/
theorem C9_sendToAll_sequential_counts (st : ConnState)
    (transport : String → String → Bool) (msg : String) (chatIds : List String) :
    ((sendToAll (connFlags st) transport msg chatIds).2.map Prod.fst = chatIds) ∧
    ((sendToAll (connFlags st) transport msg chatIds).1.1 =
      (chatIds.filter (fun c => (sendMessage (connFlags st) transport msg c).1)).length) ∧
    ((sendToAll (connFlags st) transport msg chatIds).1.2 =
      (chatIds.filter (fun c => !(sendMessage (connFlags st) transport msg c).1)).length) ∧
    ((sendToAll (connFlags st) transport msg chatIds).1.1 +
      (sendToAll (connFlags st) transport msg chatIds).1.2 = chatIds.length) := by
  induction chatIds with
  | nil => simp [sendToAll]
  | cons c rest ih =>
    obtain ⟨ih1, ih2, ih3, ih4⟩ := ih
    cases hs : (sendMessage (connFlags st) transport msg c).1 <;>
      simp [sendToAll, hs, ih1, ih2, ih3, List.filter] <;> omega

/-- C10: a destination that is empty or whitespace-only (trims to the empty
string) makes `sendMessage` return `false` without invoking the transport's
send, in every connection state including open. -/
theorem C10_blank_destination_rejected (st : ConnState)
    (transport : String → String → Bool) (msg chatId : String)
    (h : jsTrim chatId = "") :
    sendMessage (connFlags st) transport msg chatId = (false, false) := by
  cases st <;> simp [sendMessage, connFlags, h]

/-- Witness for C10: a whitespace-only destination in the open state against
an always-successful transport. -/
theorem C10_blank_destination_rejected_witness :
    sendMessage (connFlags ConnState.opened) (fun _ _ => true) "hello" "   " = (false, false) :=
  C10_blank_destination_rejected ConnState.opened (fun _ _ => true) "hello" "   " (by decide)

/-! ## Connection lifecycle (`connection.update` handler and `forceReconnect`)

The `connection.update` handler of `WhatsAppService.connectToWhatsApp` is
embedded as a function from the received event to the ordered list of actions
the handler performs.  On `close` it reads the disconnect status code, sets
`isConnected = false`, and either schedules a reconnect after 2000 ms (status
code other than `DisconnectReason.loggedOut`) or runs `forceReconnect`:
close the socket, `authService.clearAuth()`, a 1000 ms settle delay, then
`initialize()` (a new connect attempt). -/

/-- Actions the connection-event handler performs, in order. -/
inductive WAAction
  | setConnected (b : Bool)
  | closeSocket
  | clearAuth
  | waitMs (ms : Nat)
  | connectAttempt
  | emitQR
deriving DecidableEq, Repr

/-- `DisconnectReason.loggedOut` of the transport client (Baileys): HTTP-style
status code 401. -/
def loggedOutCode : Nat := 401

/-- `WhatsAppService.forceReconnect`: `close()`, `authService.clearAuth()`,
1000 ms delay, `initialize()`. -/
def forceReconnectTrace : List WAAction :=
  [WAAction.closeSocket, WAAction.clearAuth, WAAction.waitMs 1000,
   WAAction.connectAttempt]

/-- The `connection === 'close'` branch: `shouldReconnect` is
`statusCode !== DisconnectReason.loggedOut`; `isConnected` is cleared; then
either a delayed reconnect or (when the status code is `loggedOut`) the
forced re-pairing procedure. -/
def handleClose (statusCode : Option Nat) : List WAAction :=
  let shouldReconnect := statusCode ≠ some loggedOutCode
  WAAction.setConnected false ::
    (if shouldReconnect then
       [WAAction.waitMs 2000, WAAction.connectAttempt]
     else if statusCode = some loggedOutCode then forceReconnectTrace
     else [])

/-- The events the `connection.update` handler reacts to. -/
inductive ConnEvent
  | closeEvent (statusCode : Option Nat)
  | openEvent
  | qrReceived
deriving DecidableEq, Repr

/-- The whole `connection.update` handler: a QR payload surfaces the pairing
artifact, `open` sets `isConnected`, `close` runs `handleClose`. -/
def handleConnectionUpdate : ConnEvent → List WAAction
  | ConnEvent.closeEvent sc => handleClose sc
  | ConnEvent.openEvent => [WAAction.setConnected true]
  | ConnEvent.qrReceived => [WAAction.emitQR]

/-- How each action moves the spec-level connection state. -/
def stepState (s : ConnState) : WAAction → ConnState
  | WAAction.setConnected true => ConnState.opened
  | WAAction.setConnected false => ConnState.disconnected
  | WAAction.closeSocket => ConnState.disconnected
  | WAAction.connectAttempt => ConnState.connecting
  | _ => s

/-- The sequence of connection states passed through while performing the
actions, starting from `s`. -/
def stateTrace (s : ConnState) : List WAAction → List ConnState
  | [] => [s]
  | a :: as => s :: stateTrace (stepState s a) as

/-- Remove consecutive duplicate states. -/
def collapse : List ConnState → List ConnState
  | [] => []
  | [s] => [s]
  | s :: t :: rest =>
    if s = t then collapse (t :: rest) else s :: collapse (t :: rest)

/-- The per-session rows of `whatsapp_creds` and `whatsapp_keys` that
`clearAuth`'s two DELETE statements target. -/
structure AuthData where
  creds : Option String
  keyRows : String → String → Option String

/-- `WhatsAppAuthService.clearAuth`: delete the credential row and every key
row of the session. -/
def clearAuth (_a : AuthData) : AuthData :=
  { creds := none, keyRows := fun _ _ => none }

/-- C1: a disconnect whose status code is `loggedOut` clears the persisted
credentials before the next connect attempt begins, and drives the connection
state `open → disconnected → connecting` in that order; no other
connection event's handler path clears credentials; and `clearAuth` removes
the credential record and every key record of the session. -/
theorem C1_logged_out_clears_credentials (sc : Option Nat) :
    (sc = some loggedOutCode →
      WAAction.clearAuth ∈
        (handleClose sc).takeWhile (fun a => a != WAAction.connectAttempt) ∧
      collapse (stateTrace ConnState.opened (handleClose sc)) =
        [ConnState.opened, ConnState.disconnected, ConnState.connecting]) ∧
    (sc ≠ some loggedOutCode → WAAction.clearAuth ∉ handleClose sc) ∧
    (∀ ev, WAAction.clearAuth ∈ handleConnectionUpdate ev →
      ev = ConnEvent.closeEvent (some loggedOutCode)) ∧
    (∀ a : AuthData, (clearAuth a).creds = none ∧
      ∀ cat id, (clearAuth a).keyRows cat id = none) := by
  refine ⟨?_, ?_, ?_, ?_⟩
  · intro h
    subst h
    decide
  · intro hne
    simp [handleClose, hne, forceReconnectTrace]
  · intro ev hmem
    cases ev with
    | closeEvent sc2 =>
      by_cases h : sc2 = some loggedOutCode
      · rw [h]
      · exfalso
        simp [handleConnectionUpdate, handleClose, h, forceReconnectTrace] at hmem
    | openEvent => simp [handleConnectionUpdate] at hmem
    | qrReceived => simp [handleConnectionUpdate] at hmem
  · intro _a
    exact ⟨rfl, fun _ _ => rfl⟩

/-- Witness for C1 at the concrete logged-out close event (status code 401)
and a concrete non-logged-out close event (status code 408). -/
theorem C1_logged_out_clears_credentials_witness :
    (WAAction.clearAuth ∈
        (handleClose (some 401)).takeWhile (fun a => a != WAAction.connectAttempt) ∧
      collapse (stateTrace ConnState.opened (handleClose (some 401))) =
        [ConnState.opened, ConnState.disconnected, ConnState.connecting]) ∧
    WAAction.clearAuth ∉ handleClose (some 408) ∧
    (clearAuth ⟨some "creds", fun _ _ => some "k"⟩).creds = none :=
  ⟨(C1_logged_out_clears_credentials (some 401)).1 rfl,
   (C1_logged_out_clears_credentials (some 408)).2.1 (by decide),
   ((C1_logged_out_clears_credentials (some 401)).2.2.2
      ⟨some "creds", fun _ _ => some "k"⟩).1⟩

/-! ## `initialize` / `connectToWhatsApp` (claim C6)

`WhatsAppService.initialize` forwards unconditionally to
`connectToWhatsApp`, which loads the auth state and calls `makeWASocket`,
assigning a fresh socket to `this.sock`; there is no guard on an existing
socket or on `isConnected`.  The embedding records the socket slot, the
connected flag, a counter supplying fresh socket identities, and the number
of connect attempts started. -/

/-- The service's mutable fields relevant to `initialize`. -/
structure WAServiceState where
  sockId : Option Nat
  isConnected : Bool
  nextSock : Nat
  connectsStarted : Nat
deriving DecidableEq, Repr

/-- `WhatsAppService.connectToWhatsApp`: build a fresh socket and store it in
`this.sock`; `isConnected` is untouched (only connection events change it). -/
def connectToWhatsApp (st : WAServiceState) : WAServiceState :=
  { sockId := some st.nextSock
    isConnected := st.isConnected
    nextSock := st.nextSock + 1
    connectsStarted := st.connectsStarted + 1 }

/-- `WhatsAppService.initialize`: logs and calls `connectToWhatsApp`
unconditionally. -/
def initService (st : WAServiceState) : WAServiceState :=
  connectToWhatsApp st

/-- The service is in the spec's `open` state: a socket exists and the
connection event reported open. -/
def isOpenService (st : WAServiceState) : Bool :=
  st.sockId.isSome && st.isConnected

/-- The service is in the spec's `connecting` (or `awaiting_pairing`) state:
a socket exists but the connection is not open. -/
def isConnectingService (st : WAServiceState) : Bool :=
  st.sockId.isSome && !st.isConnected

/-- The claim that `initialize()` is idempotent: calling it while already
connecting or open leaves the state unchanged. -/
def claimC6 : Prop :=
  ∀ st : WAServiceState,
    (isOpenService st || isConnectingService st) = true → initService st = st

/-- C6 counterexample: from the open state with socket 0, `initialize` builds
socket 1 and counts a second connect attempt, so the state changes. -/
theorem C6_counterexample : ¬ claimC6 := fun h =>
  absurd (h ⟨some 0, true, 1, 1⟩ (by decide)) (by decide)

/-- C6 (amended): `initialize()` is not idempotent — every call, in every
state including connecting and open, unconditionally starts a new connect
attempt, creating a fresh transport socket that replaces the current one
(the previous connection is not closed first), so calling it while open
changes the state rather than being a no-op. -/
theorem C6_initService_not_idempotent (st : WAServiceState) :
    (initService st).connectsStarted = st.connectsStarted + 1 ∧
    (initService st).sockId = some st.nextSock ∧
    (isOpenService st = true → initService st ≠ st) := by
  refine ⟨rfl, rfl, ?_⟩
  intro _ he
  have hc : (initService st).connectsStarted = st.connectsStarted := by rw [he]
  simp [initService, connectToWhatsApp] at hc

/-- Witness for C6 (amended) at a concrete open state. -/
theorem C6_initService_not_idempotent_witness :
    initService ⟨some 0, true, 1, 1⟩ ≠ ⟨some 0, true, 1, 1⟩ :=
  (C6_initService_not_idempotent ⟨some 0, true, 1, 1⟩).2.2 (by decide)

/-! ## Credential store (`WhatsAppAuthService` and its `useAuthState` adapter)

The `whatsapp_keys` table (rows `(session_id, key_id, key_data)` with
`key_id = type + ":" + id`) is embedded, per session, as a map from
`(category, id)` to an optional stored value; `getKey`, `saveKey` and
`removeKey` are the service's SELECT / INSERT OR REPLACE / DELETE statements.
`useAuthState` additionally keeps the in-memory `keys` object as a
write-through cache: `state.keys.get` consults the cache first and backfills
it from the table, `state.keys.set` writes each entry to the cache and the
table, a `null` (tombstone) value deleting both. -/

/-- A per-session view of the `whatsapp_keys` table (or of the in-memory
`keys` object): `(category, id)` to stored value. -/
def KeyMap := String → String → Option String

/-- `WhatsAppAuthService.getKey`: SELECT by `(session_id, key_id)`. -/
def getKey (db : KeyMap) (cat id : String) : Option String := db cat id

/-- `WhatsAppAuthService.saveKey`: INSERT OR REPLACE the row. -/
def saveKey (db : KeyMap) (cat id : String) (v : String) : KeyMap :=
  fun c i => if c = cat ∧ i = id then some v else db c i

/-- `WhatsAppAuthService.removeKey`: DELETE the row. -/
def removeKey (db : KeyMap) (cat id : String) : KeyMap :=
  fun c i => if c = cat ∧ i = id then none else db c i

/-- The state `useAuthState` maintains for key records: the in-memory `keys`
cache and the database table. -/
structure SignalKeyStore where
  cache : KeyMap
  db : KeyMap

/-- The store of a fresh session: no cached entries, no rows. -/
def emptyKeyStore : SignalKeyStore :=
  { cache := fun _ _ => none, db := fun _ _ => none }

/-- One entry of `state.keys.set`'s nested loop: write the value to the
cache, then on a tombstone delete the row and the cache entry, otherwise
upsert the row. -/
def keysSetOne (st : SignalKeyStore) (cat id : String) (v : Option String) : SignalKeyStore :=
  match v with
  | none => { cache := removeKey st.cache cat id, db := removeKey st.db cat id }
  | some w => { cache := saveKey st.cache cat id w, db := saveKey st.db cat id w }

/-- `state.keys.set(data)`: apply the entries in order. -/
def keysSet (st : SignalKeyStore) (entries : List (String × String × Option String)) :
    SignalKeyStore :=
  entries.foldl (fun s e => keysSetOne s e.1 e.2.1 e.2.2) st

/-- One id of `state.keys.get`: cache hit, else read the table and backfill
the cache, an absent row contributing nothing. -/
def keysGetOne (st : SignalKeyStore) (cat id : String) : Option String × SignalKeyStore :=
  match st.cache cat id with
  | some v => (some v, st)
  | none =>
    match getKey st.db cat id with
    | some v => (some v, { st with cache := saveKey st.cache cat id v })
    | none => (none, st)

/-- `state.keys.get(type, ids)`: iterate the requested ids in order,
collecting only the ids actually present. -/
def keysGet : SignalKeyStore → String → List String → List (String × String) × SignalKeyStore
  | st, _, [] => ([], st)
  | st, cat, id :: ids =>
    let r := keysGetOne st cat id
    let rest := keysGet r.2 cat ids
    ((match r.1 with
      | some v => (id, v) :: rest.1
      | none => rest.1), rest.2)

/-- The last value written for `(cat, id)` by a sequence of set entries, if
any (`some none` = the last write was a tombstone). -/
def lastWrite : List (String × String × Option String) → String → String → Option (Option String)
  | [], _, _ => none
  | e :: rest, cat, id =>
    match lastWrite rest cat id with
    | some v => some v
    | none => if e.1 = cat ∧ e.2.1 = id then some e.2.2 else none

/-- First binding of an id in the mapping `keys.get` returns. -/
def lookupId : List (String × String) → String → Option String
  | [], _ => none
  | (i, v) :: rest, id => if i = id then some v else lookupId rest id

/-- After a sequence of set entries, both the cache and the table hold, at
each `(category, id)`, the last value written there (deleted on a tombstone),
and are untouched where nothing was written. -/
theorem keysSet_spec (ops : List (String × String × Option String))
    (st : SignalKeyStore) (c i : String) :
    (keysSet st ops).cache c i =
      (match lastWrite ops c i with
       | some v => v
       | none => st.cache c i) ∧
    (keysSet st ops).db c i =
      (match lastWrite ops c i with
       | some v => v
       | none => st.db c i) := by
  induction ops generalizing st with
  | nil => simp [keysSet, lastWrite]
  | cons e rest ih =>
    have step : keysSet st (e :: rest) = keysSet (keysSetOne st e.1 e.2.1 e.2.2) rest := rfl
    rw [step]
    obtain ⟨ihc, ihd⟩ := ih (keysSetOne st e.1 e.2.1 e.2.2)
    rw [ihc, ihd]
    cases hlw : lastWrite rest c i with
    | some v => simp [lastWrite, hlw]
    | none =>
      by_cases hm : e.1 = c ∧ e.2.1 = i
      · obtain ⟨hm1, hm2⟩ := hm
        cases hv : e.2.2 with
        | none =>
          simp [lastWrite, hlw, hm1, hm2, hv, keysSetOne, removeKey]
        | some w =>
          simp [lastWrite, hlw, hm1, hm2, hv, keysSetOne, saveKey]
      · have hm2 : ¬(c = e.1 ∧ i = e.2.1) := fun ⟨a, b⟩ => hm ⟨a.symm, b.symm⟩
        cases hv : e.2.2 with
        | none => simp [lastWrite, hlw, hm, hm2, keysSetOne, removeKey]
        | some w => simp [lastWrite, hlw, hm, hm2, keysSetOne, saveKey]

/-- When the cache agrees with the table, `keys.get` returns exactly the
present entries of the requested ids, in request order, without changing the
store. -/
theorem keysGet_sync (st : SignalKeyStore) (hsync : ∀ c i, st.cache c i = st.db c i)
    (cat : String) (ids : List String) :
    keysGet st cat ids =
      (ids.filterMap (fun i => (st.cache cat i).map (fun v => (i, v))), st) := by
  induction ids with
  | nil => simp [keysGet]
  | cons id ids ih =>
    cases hc : st.cache cat id with
    | some v =>
      simp [keysGet, keysGetOne, hc, ih]
    | none =>
      simp [keysGet, keysGetOne, hc, getKey, (hsync cat id).symm.trans hc, ih]

/-- Looking an id up in the present-entries mapping of a request list gives
the underlying map's value when the id was requested, else nothing. -/
theorem lookupId_filterMap (m : String → Option String) (ids : List String) (id : String) :
    lookupId (ids.filterMap (fun i => (m i).map (fun v => (i, v)))) id =
      if id ∈ ids then m id else none := by
  induction ids with
  | nil => simp [lookupId]
  | cons j ids ih =>
    by_cases hj : j = id
    · subst hj
      cases hm : m j with
      | some v => simp [lookupId, hm]
      | none => simp [lookupId, hm, ih]
    · have hj2 : id ≠ j := fun h => hj h.symm
      cases hm : m j with
      | some v => simp [lookupId, hm, hj, hj2, ih]
      | none => simp [lookupId, hm, hj, hj2, ih]

/-- C2: for every finite sequence of `setKeys` entries applied to a fresh
store and every requested id, a subsequent `getKeys` yields, for that id,
exactly the last non-tombstone value written for its `(category, id)` — and
omits the id when the last write was a tombstone or it was never written. -/
theorem C2_keys_last_write_wins (ops : List (String × String × Option String))
    (cat : String) (ids : List String) (id : String) (hid : id ∈ ids) :
    lookupId (keysGet (keysSet emptyKeyStore ops) cat ids).1 id =
      (lastWrite ops cat id).join := by
  have hspec := fun c i => keysSet_spec ops emptyKeyStore c i
  have hsync : ∀ c i,
      (keysSet emptyKeyStore ops).cache c i = (keysSet emptyKeyStore ops).db c i := by
    intro c i
    rw [(hspec c i).1, (hspec c i).2]
    cases lastWrite ops c i <;> simp [emptyKeyStore]
  rw [keysGet_sync _ hsync cat ids]
  simp only [lookupId_filterMap, hid, if_true, ite_true, if_pos]
  rw [(hspec cat id).1]
  cases lastWrite ops cat id <;> simp [emptyKeyStore, Option.join]

/-- Witness for C2: writing a value for `id1` and then a tombstone leaves
`getKeys` returning an empty mapping for `id1`; writing only the value
returns it. -/
theorem C2_keys_last_write_wins_witness :
    lookupId (keysGet (keysSet emptyKeyStore
        [("sk", "id1", some "v1"), ("sk", "id1", none)]) "sk" ["id1"]).1 "id1" = none ∧
    lookupId (keysGet (keysSet emptyKeyStore
        [("sk", "id1", some "v1")]) "sk" ["id1"]).1 "id1" = some "v1" :=
  ⟨C2_keys_last_write_wins [("sk", "id1", some "v1"), ("sk", "id1", none)]
      "sk" ["id1"] "id1" (by decide),
   C2_keys_last_write_wins [("sk", "id1", some "v1")] "sk" ["id1"] "id1" (by decide)⟩

/-! ## `loadCreds` (claim C8)

`WhatsAppAuthService.loadCreds` SELECTs the session's credential row: a
missing row yields `initAuthCreds()`, a row that fails to parse logs the
error and also yields `initAuthCreds()`, and only a thrown backend error
propagates.  The row read is modelled by its result (an `Except` of an
optional serialized record), parsing by an oracle. -/

/-- A credential record; `initAuthCreds()` of the transport library produces
the fresh empty one (no registered identity, no stored material). -/
structure AuthCreds where
  registered : Bool
  credsData : Option String
deriving DecidableEq, Repr

/-- The transport library's `initAuthCreds()`: a freshly initialized, valid,
empty credential record. -/
def initAuthCreds : AuthCreds :=
  { registered := false, credsData := none }

/-- The credential store's only failure: backend I/O. -/
inductive StoreErr
  | storeUnavailable
deriving DecidableEq, Repr

/-- `WhatsAppAuthService.loadCreds`: `row` is the result of the SELECT,
`parse` the JSON deserialization. -/
def loadCreds (row : Except StoreErr (Option String))
    (parse : String → Option AuthCreds) : Except StoreErr AuthCreds :=
  match row with
  | Except.error e => Except.error e
  | Except.ok none => Except.ok initAuthCreds
  | Except.ok (some s) =>
    match parse s with
    | some c => Except.ok c
    | none => Except.ok initAuthCreds

/-- C8: for a session with no saved credential row, `loadCreds` succeeds with
the freshly initialized empty record; any readable row also succeeds (a
corrupt row falls back to the fresh record rather than failing); the only
failure it propagates is the backend's I/O error. -/
theorem C8_loadCreds_missing_is_fresh (parse : String → Option AuthCreds) :
    loadCreds (Except.ok none) parse = Except.ok initAuthCreds ∧
    (∀ s, ∃ c, loadCreds (Except.ok (some s)) parse = Except.ok c) ∧
    (∀ e, loadCreds (Except.error e) parse = Except.error e) := by
  refine ⟨rfl, ?_, fun e => rfl⟩
  intro s
  cases h : parse s with
  | some c => exact ⟨c, by simp [loadCreds, h]⟩
  | none => exact ⟨initAuthCreds, by simp [loadCreds, h]⟩

/-! ## Scheduler start and time-of-day parsing (claim C7)

`SchedulerService.start` returns early when already running; otherwise it
calls `convertTimeToCron(this.config.sendTime)` — whose thrown error
propagates out of `start()` before any timer is armed — and then arms the
cron task.  `convertTimeToCron` splits on `":"`, requires exactly two parts,
applies JavaScript `parseInt(part || '0', 10)` to each (longest digit
prefix, optional sign, NaN when no digits), and range-checks 0–23 / 0–59.
The JS string primitives are embedded character-list–faithfully. -/

/-- JavaScript `String.prototype.split` with a one-character separator,
accumulator-based over the character list. -/
def jsSplitAux (sep : Char) : List Char → List Char → List (List Char)
  | [], acc => [acc.reverse]
  | c :: cs, acc =>
    if c = sep then acc.reverse :: jsSplitAux sep cs []
    else jsSplitAux sep cs (c :: acc)

/-- `time.split(':')`. -/
def jsSplit (sep : Char) (s : String) : List String :=
  (jsSplitAux sep s.data []).map String.mk

/-- Decimal value of a digit run, most significant first. -/
def digitsVal (ds : List Char) : Nat :=
  ds.foldl (fun a c => 10 * a + (c.toNat - 48)) 0

/-- The longest leading digit run's value; none when the run is empty
(`parseInt` yields NaN). -/
def parseLeadingDigits (cs : List Char) : Option Nat :=
  match cs.takeWhile Char.isDigit with
  | [] => none
  | ds => some (digitsVal ds)

/-- JavaScript `parseInt(s, 10)`: skip leading whitespace, optional sign,
then the longest digit prefix; `none` models NaN. -/
def jsParseInt (s : String) : Option Int :=
  let cs := s.data.dropWhile isJsWs
  if cs.head? = some '-' then (parseLeadingDigits cs.tail).map (fun n => -(n : Int))
  else if cs.head? = some '+' then (parseLeadingDigits cs.tail).map (fun n => (n : Int))
  else (parseLeadingDigits cs).map (fun n => (n : Int))

/-- JavaScript `s || d` on strings: the empty string is falsy. -/
def orDefault (s d : String) : String := if s = "" then d else s

/-- `SchedulerService.convertTimeToCron`: split on `":"`, two parts required,
`parseInt(parts[i] || '0', 10)`, NaN or out-of-range hours/minutes throw,
else the cron expression `minutes hours * * *`. -/
def convertTimeToCron (time : String) : Except String String :=
  let parts := jsSplit ':' time
  if parts.length ≠ 2 then Except.error ("Invalid time format: " ++ time)
  else
    match jsParseInt (orDefault (parts.getD 0 "") "0"),
          jsParseInt (orDefault (parts.getD 1 "") "0") with
    | some hours, some minutes =>
      if hours < 0 || hours > 23 || minutes < 0 || minutes > 59 then
        Except.error ("Invalid time format: " ++ time)
      else Except.ok (toString minutes ++ " " ++ toString hours ++ " * * *")
    | _, _ => Except.error ("Invalid time format: " ++ time)

/-- The scheduler's fields: `isRunning` and the armed cron task (kept as its
cron expression). -/
structure SchedulerState where
  running : Bool
  task : Option String
deriving Repr

/-- `SchedulerService.start`: no-op when already running; otherwise parse the
configured send time (a parse error propagates, arming nothing) and arm the
daily task. -/
def schedStart (st : SchedulerState) (sendTime : String) : Except String SchedulerState :=
  if st.running then Except.ok st
  else
    match convertTimeToCron sendTime with
    | Except.error e => Except.error e
    | Except.ok cron => Except.ok { running := true, task := some cron }

/-- Did `start()` return without throwing? -/
def startedOk : Except String SchedulerState → Bool
  | Except.ok _ => true
  | Except.error _ => false

/-- The claim's notion of a well-formed `HH:MM` time of day: exactly two
digits, a colon, two digits, with hours 0–23 and minutes 0–59. -/
def specWellFormedHHMM (s : String) : Bool :=
  match s.data with
  | [h1, h0, c, m1, m0] =>
    (c == ':') && h1.isDigit && h0.isDigit && m1.isDigit && m0.isDigit &&
      decide (10 * (h1.toNat - 48) + (h0.toNat - 48) ≤ 23) &&
      decide (10 * (m1.toNat - 48) + (m0.toNat - 48) ≤ 59)
  | _ => false

/-- The hour denoted by a well-formed `HH:MM` string. -/
def specHH (s : String) : Nat :=
  match s.data with
  | [h1, h0, _, _, _] => 10 * (h1.toNat - 48) + (h0.toNat - 48)
  | _ => 0

/-- The minute denoted by a well-formed `HH:MM` string. -/
def specMM (s : String) : Nat :=
  match s.data with
  | [_, _, _, m1, m0] => 10 * (m1.toNat - 48) + (m0.toNat - 48)
  | _ => 0

example : convertTimeToCron "07:30" = Except.ok "30 7 * * *" := rfl
example : convertTimeToCron "ab:cd" = Except.error ("Invalid time format: " ++ "ab:cd") := rfl
example : convertTimeToCron "24:00" = Except.error ("Invalid time format: " ++ "24:00") := rfl
example : convertTimeToCron "07:30:00" =
    Except.error ("Invalid time format: " ++ "07:30:00") := rfl
example : convertTimeToCron "-1:30" = Except.error ("Invalid time format: " ++ "-1:30") := rfl
example : convertTimeToCron "07:3x" = Except.ok "3 7 * * *" := rfl

/-- Printing a natural number through the integer cast changes nothing. -/
theorem int_ofNat_toString (n : Nat) : toString ((n : Nat) : Int) = toString n := rfl

/-- A digit differs from any non-digit character. -/
theorem digit_ne_of_not_digit (c d : Char) (hc : c.isDigit = true) (hd : d.isDigit = false) :
    c ≠ d := fun h => by
  subst h
  rw [hc] at hd
  exact Bool.true_eq_false.mp hd

/-- Digits are not JavaScript whitespace. -/
theorem digit_not_ws (c : Char) (h : c.isDigit = true) : isJsWs c = false := by
  cases hw : isJsWs c
  · rfl
  · exfalso
    simp only [isJsWs, Bool.or_eq_true, decide_eq_true_eq] at hw
    rcases hw with ((((h1 | h1) | h1) | h1) | h1) | h1 <;>
      (subst h1; exact absurd h (by decide))

/-- `parseInt` on a two-digit string yields its decimal value. -/
theorem jsParseInt_two_digits (c1 c2 : Char) (h1 : c1.isDigit = true) (h2 : c2.isDigit = true) :
    jsParseInt ⟨[c1, c2]⟩ =
      some (((10 * (c1.toNat - 48) + (c2.toNat - 48) : Nat)) : Int) := by
  have hne1 : c1 ≠ '-' := digit_ne_of_not_digit c1 '-' h1 (by decide)
  have hne2 : c1 ≠ '+' := digit_ne_of_not_digit c1 '+' h1 (by decide)
  have hws : isJsWs c1 = false := digit_not_ws c1 h1
  simp [jsParseInt, List.dropWhile, hws, hne1, hne2, parseLeadingDigits,
    List.takeWhile, h1, h2, digitsVal]

/-- Splitting a digit-colon-digit string on the colon. -/
theorem jsSplit_hhmm (c1 c2 c4 c5 : Char)
    (h1 : c1.isDigit = true) (h2 : c2.isDigit = true)
    (h4 : c4.isDigit = true) (h5 : c5.isDigit = true) :
    jsSplit ':' ⟨[c1, c2, ':', c4, c5]⟩ = [⟨[c1, c2]⟩, ⟨[c4, c5]⟩] := by
  have hne1 : c1 ≠ ':' := digit_ne_of_not_digit c1 ':' h1 (by decide)
  have hne2 : c2 ≠ ':' := digit_ne_of_not_digit c2 ':' h2 (by decide)
  have hne4 : c4 ≠ ':' := digit_ne_of_not_digit c4 ':' h4 (by decide)
  have hne5 : c5 ≠ ':' := digit_ne_of_not_digit c5 ':' h5 (by decide)
  simp [jsSplit, jsSplitAux, hne1, hne2, hne4, hne5]

/-- `convertTimeToCron` accepts every well-formed `HH:MM` and arms exactly
that hour and minute. -/
theorem convertTimeToCron_wf (c1 c2 c4 c5 : Char)
    (h1 : c1.isDigit = true) (h2 : c2.isDigit = true)
    (h4 : c4.isDigit = true) (h5 : c5.isDigit = true)
    (hh : 10 * (c1.toNat - 48) + (c2.toNat - 48) ≤ 23)
    (hm : 10 * (c4.toNat - 48) + (c5.toNat - 48) ≤ 59) :
    convertTimeToCron ⟨[c1, c2, ':', c4, c5]⟩ =
      Except.ok (toString (10 * (c4.toNat - 48) + (c5.toNat - 48)) ++ " " ++
                 toString (10 * (c1.toNat - 48) + (c2.toNat - 48)) ++ " * * *") := by
  have hsplit := jsSplit_hhmm c1 c2 c4 c5 h1 h2 h4 h5
  have hmk1 : (⟨[c1, c2]⟩ : String) ≠ "" := by
    intro h
    exact absurd (congrArg String.data h) (by simp)
  have hmk2 : (⟨[c4, c5]⟩ : String) ≠ "" := by
    intro h
    exact absurd (congrArg String.data h) (by simp)
  have hp1 := jsParseInt_two_digits c1 c2 h1 h2
  have hp2 := jsParseInt_two_digits c4 c5 h4 h5
  unfold convertTimeToCron
  rw [hsplit]
  simp only [List.length_cons, List.length_nil, List.getD, List.get?, Option.getD,
    orDefault, if_neg hmk1, if_neg hmk2, hp1, hp2]
  norm_num
  rw [if_neg]
  · have e1 : (10 * ((c1.toNat - 48 : Nat) : Int) + ((c2.toNat - 48 : Nat) : Int)) =
        (((10 * (c1.toNat - 48) + (c2.toNat - 48) : Nat)) : Int) := by push_cast; ring
    have e2 : (10 * ((c4.toNat - 48 : Nat) : Int) + ((c5.toNat - 48 : Nat) : Int)) =
        (((10 * (c4.toNat - 48) + (c5.toNat - 48) : Nat)) : Int) := by push_cast; ring
    rw [e1, e2, int_ofNat_toString, int_ofNat_toString]
  · intro hc
    rcases hc with ((hc | hc) | hc) | hc <;> omega

/-- The claim that `start()` throws exactly on the strings that are not
well-formed `HH:MM` (hours 0–23, minutes 0–59) and arms every well-formed
one at its hour and minute. -/
def claimC7 : Prop :=
  ∀ (t : String) (st : SchedulerState), st.running = false →
    (specWellFormedHHMM t = false → startedOk (schedStart st t) = false) ∧
    (specWellFormedHHMM t = true →
      schedStart st t =
        Except.ok ⟨true, some (toString (specMM t) ++ " " ++ toString (specHH t) ++ " * * *")⟩)

/-- C7 counterexample: `"07:3x"` is not well-formed `HH:MM`, yet `parseInt`
ignores the trailing garbage and `start()` succeeds, arming 07:03 instead of
throwing. -/
theorem C7_counterexample : ¬ claimC7 := fun h =>
  absurd ((h "07:3x" ⟨false, none⟩ rfl).1 (by decide)) (by decide)

/-- C7 (amended): when `start()` is called on a non-running scheduler, a
`convertTimeToCron` parse error propagates synchronously out of `start()`
with no timer armed and no default substituted; and every well-formed
`HH:MM` (two digits, colon, two digits, hours 0–23, minutes 0–59) is
accepted, arming a daily cron schedule at exactly that minute and hour.
(The parser is more lenient than well-formed `HH:MM`: `parseInt` prefix
parsing also accepts strings such as `"07:3x"` or `"7:05"`.) -/
theorem C7_start_rejects_parse_failures (t : String) (st : SchedulerState)
    (hrun : st.running = false) :
    (∀ e, convertTimeToCron t = Except.error e → schedStart st t = Except.error e) ∧
    (specWellFormedHHMM t = true →
      schedStart st t =
        Except.ok ⟨true, some (toString (specMM t) ++ " " ++ toString (specHH t) ++ " * * *")⟩) := by
  constructor
  · intro e he
    simp [schedStart, hrun, he]
  · intro hwf
    rcases t with ⟨data⟩
    rcases data with _ | ⟨c1, data⟩
    · exact absurd hwf (by simp [specWellFormedHHMM])
    rcases data with _ | ⟨c2, data⟩
    · exact absurd hwf (by simp [specWellFormedHHMM])
    rcases data with _ | ⟨c3, data⟩
    · exact absurd hwf (by simp [specWellFormedHHMM])
    rcases data with _ | ⟨c4, data⟩
    · exact absurd hwf (by simp [specWellFormedHHMM])
    rcases data with _ | ⟨c5, data⟩
    · exact absurd hwf (by simp [specWellFormedHHMM])
    rcases data with _ | ⟨c6, data⟩
    swap
    · exact absurd hwf (by simp [specWellFormedHHMM])
    simp only [specWellFormedHHMM, Bool.and_eq_true, beq_iff_eq, decide_eq_true_eq] at hwf
    obtain ⟨⟨⟨⟨⟨⟨hc3, h1⟩, h2⟩, h4⟩, h5⟩, hh⟩, hm⟩ := hwf
    subst hc3
    have hcr := convertTimeToCron_wf c1 c2 c4 c5 h1 h2 h4 h5 hh hm
    simp [schedStart, hrun, hcr, specHH, specMM]

/-- Witness for C7 (amended): `start()` on a fresh scheduler propagates the
parse error for `"ab:cd"`, and accepts `"06:00"` arming `0 6 * * *`. -/
theorem C7_start_rejects_parse_failures_witness :
    schedStart ⟨false, none⟩ "ab:cd" = Except.error ("Invalid time format: " ++ "ab:cd") ∧
    schedStart ⟨false, none⟩ "06:00" = Except.ok ⟨true, some "0 6 * * *"⟩ :=
  ⟨(C7_start_rejects_parse_failures "ab:cd" ⟨false, none⟩ rfl).1
      ("Invalid time format: " ++ "ab:cd") rfl,
   (C7_start_rejects_parse_failures "06:00" ⟨false, none⟩ rfl).2 (by decide)⟩
